import Mathlib

/-!
Shallow embedding of the connection-client core of the repository
(`useOpenClaw` hook and the `GatewayProvider` wrapper, both in the file
embedded here from `src/unnamed/part_011`).

The hook drives a WebSocket: it performs a `connect` handshake with the
reserved correlation id `"c1"`, keeps a pending-request map
(`requestsRef : Map<string, RequestPromise>`), a listener set
(`listenersRef`), a reconnect timer (`reconnectTimeoutRef`) and a mounted
flag (`isMountedRef`).  We model the mutable refs as fields of a state
record, timers as numeric ids handed out by a counter, and the effects the
code performs (sending a frame, settling a promise, invoking a listener,
logging an error, requesting a socket close, scheduling a reconnect) as an
output trace of events.  JavaScript exceptions thrown by `ws.send` or by a
listener are modelled by explicit boolean flags (`sendThrows` on the
socket, a throw flag per listener); a thrown exception propagates exactly
as far as the nearest enclosing `try`/`catch` does in the source.
-/

namespace OpenClaw

/-- `WebSocket.readyState` values. -/
inductive ReadyState where
  | CONNECTING
  | OPEN
  | CLOSING
  | CLOSED
deriving DecidableEq, Repr

/-- The transport handle.  `sendThrows` models whether a `ws.send` call on
this socket throws synchronously (e.g. transport already closing). -/
structure Socket where
  readyState : ReadyState
  sendThrows : Bool
deriving DecidableEq, Repr

/-- The inbound wire envelope `OpenClawMessage`, restricted to the fields the
hook reads: `type`, `id`, `ok`, `error` (modelled as the boolean `hasError`,
i.e. whether `data.error` is truthy), `event`, `payload` (abstracted to a
number). -/
structure Msg where
  type : String
  id : Option String := none
  ok : Option Bool := none
  hasError : Bool := false
  event : Option String := none
  payload : Nat := 0
deriving DecidableEq, Repr

/-- The two kinds of entry stored in `requestsRef`: the handshake entry for
the reserved id `"c1"` (whose `resolve` sets `isConnected` and whose `reject`
closes the socket) and an ordinary `call()` entry (whose continuations settle
the caller's promise). -/
inductive EntryKind where
  | handshake
  | userCall
deriving DecidableEq, Repr

/-- One `RequestPromise` table entry: its timeout handle and which
continuation pair it carries. -/
structure Entry where
  timerId : Nat
  kind : EntryKind
deriving DecidableEq, Repr

/-- How a promise settles. -/
inductive Outcome where
  | resolved (payload : Nat)
  | rejectedErr (reason : String)
deriving DecidableEq, Repr

/-- Observable effects emitted while processing one callback. -/
inductive OutEv where
  /-- a request frame `{type:"req", id, method, ...}` went out on the wire -/
  | frameSent (method : String) (id : String)
  /-- the promise associated with correlation id `id` settled -/
  | settled (id : String) (o : Outcome)
  /-- listener `l` was invoked with a frame of the given `type` tag -/
  | notified (l : Nat) (tag : String)
  /-- a `setTimeout` request-timeout timer was created -/
  | timerStarted (t : Nat)
  /-- a `clearTimeout` ran on a request-timeout timer -/
  | timerCleared (t : Nat)
  /-- `console.error` in a `catch` block -/
  | logError (what : String)
  /-- `ws.close()` was invoked -/
  | closeRequested
  /-- a reconnect `setTimeout(connect, RECONNECT_DELAY)` was armed -/
  | reconnectScheduled (t : Nat)
  /-- `clearTimeout` ran on the reconnect timer -/
  | reconnectCleared (t : Nat)
  /-- a new `WebSocket` was constructed: the `Connecting` transition -/
  | socketCreated
  /-- `client.stop()` ran on a `GatewayBrowserClient` (provider model) -/
  | clientStopped (c : Nat)
  /-- `new GatewayBrowserClient(...).start()` ran (provider model) -/
  | clientStarted (c : Nat)
deriving DecidableEq, Repr

/-- State of one `useOpenClaw` hook instance: the refs plus the
`isConnected` React state, with fresh-timer and fresh-listener counters.
Each listener is a pair of an identity and a flag saying whether invoking it
throws. -/
structure St where
  socket : Option Socket
  requests : List (String × Entry)
  listeners : List (Nat × Bool)
  reconnectTimer : Option Nat
  isMounted : Bool
  isConnected : Bool
  nextTimer : Nat
deriving DecidableEq, Repr

/-! ### JS `Map` operations on the association list (keys are unique in a
JS `Map`; `set` replaces in place, `delete` removes, iteration is in
insertion order). -/

def hasKey (m : List (String × Entry)) (k : String) : Bool :=
  m.any (fun p => p.1 = k)

def getKey (m : List (String × Entry)) (k : String) : Option Entry :=
  (m.find? (fun p => p.1 = k)).map (fun p => p.2)

def setKey (m : List (String × Entry)) (k : String) (v : Entry) :
    List (String × Entry) :=
  match m with
  | [] => [(k, v)]
  | (k0, v0) :: rest =>
      if k0 = k then (k, v) :: rest else (k0, v0) :: setKey rest k v

def delKey (m : List (String × Entry)) (k : String) : List (String × Entry) :=
  m.filter (fun p => p.1 ≠ k)

/-- The reserved handshake correlation id (`const CONNECT_ID = "c1"`). -/
def CONNECT_ID : String := "c1"

/-- `ws.send(...)`: emits the frame, or throws (returns `true`) when the
socket's send throws synchronously. -/
def sockSend (sock : Socket) (method id : String) : List OutEv × Bool :=
  if sock.sendThrows then ([], true) else ([.frameSent method id], false)

/-- `sendConnect()`: no-op unless the socket is `OPEN`; creates the timeout
timer and the `"c1"` table entry only if the entry does not exist yet (a
challenge-triggered re-send keeps the original entry); then sends the
handshake frame.  The third component reports whether `ws.send` threw. -/
def sendConnect (st : St) : St × List OutEv × Bool :=
  match st.socket with
  | none => (st, [], false)
  | some sock =>
      if sock.readyState ≠ ReadyState.OPEN then (st, [], false)
      else
        let (st1, out1) :=
          if hasKey st.requests CONNECT_ID then (st, [])
          else
            ({ st with
                requests :=
                  setKey st.requests CONNECT_ID ⟨st.nextTimer, .handshake⟩,
                nextTimer := st.nextTimer + 1 },
              [OutEv.timerStarted st.nextTimer])
        let (out2, threw) := sockSend sock "connect" CONNECT_ID
        (st1, out1 ++ out2, threw)

/-- Settling the entry found for a response frame (`ws.onmessage`, the
`type === "res"` branch): `clearTimeout`, then reject on `data.error` or
`ok === false`, else resolve; the handshake entry's `resolve` flips
`isConnected` to true and its `reject` calls `ws.close()`. -/
def settleRes (st : St) (i : String) (e : Entry) (data : Msg) :
    St × List OutEv :=
  let cleared := [OutEv.timerCleared e.timerId]
  if data.hasError ∨ data.ok = some false then
    match e.kind with
    | .userCall =>
        (st, cleared ++ [.settled i (.rejectedErr "Request failed")])
    | .handshake =>
        ({ st with
            socket := st.socket.map (fun s => { s with readyState := .CLOSING }) },
          cleared ++ [.settled i (.rejectedErr "Request failed"), .closeRequested])
  else
    match e.kind with
    | .userCall => (st, cleared ++ [.settled i (.resolved data.payload)])
    | .handshake =>
        ({ st with isConnected := true },
          cleared ++ [.settled i (.resolved data.payload)])

/-- The listener fan-out in `ws.onmessage`:
`listenersRef.current.forEach((listener) => listener(data))`.  There is no
per-listener guard, so a throwing listener is invoked, its exception aborts
the `forEach`, and the remaining listeners are skipped; the second component
reports whether an exception escaped. -/
def broadcastAbort (ls : List (Nat × Bool)) (tag : String) :
    List OutEv × Bool :=
  match ls with
  | [] => ([], false)
  | (l, thr) :: rest =>
      if thr then ([.notified l tag], true)
      else
        let (os, b) := broadcastAbort rest tag
        (.notified l tag :: os, b)

/-- `ws.onmessage`: parse (a `none` argument models a message that fails
`JSON.parse`), handle `connect.challenge`, handle responses, then notify
listeners; the whole body is wrapped in one `try`/`catch` that logs. -/
def onmessage (st : St) (raw : Option Msg) : St × List OutEv :=
  match raw with
  | none => (st, [.logError "Failed to parse message"])
  | some data =>
      if data.type = "event" ∧ data.event = some "connect.challenge" then
        let (st1, out1, threw) := sendConnect st
        (st1, out1 ++ if threw then [OutEv.logError "Failed to parse message"] else [])
      else
        let (st1, out1) :=
          if data.type = "res" then
            match data.id with
            | some i =>
                match getKey st.requests i with
                | some e =>
                    let (st2, out2) := settleRes st i e data
                    ({ st2 with requests := delKey st2.requests i }, out2)
                | none => (st, [])
            | none => (st, [])
          else (st, [])
        let (out2, escaped) := broadcastAbort st1.listeners data.type
        (st1, out1 ++ out2 ++
          if escaped then [OutEv.logError "Failed to parse message"] else [])

/-- `cleanupPendingRequests(reason)`: for each table entry, `clearTimeout`
then `reject(new Error(reason))` (the handshake entry's reject also calls
`ws.close()`); the caller clears the map afterwards. -/
def cleanupOut (m : List (String × Entry)) (reason : String) : List OutEv :=
  match m with
  | [] => []
  | (i, e) :: rest =>
      OutEv.timerCleared e.timerId ::
        OutEv.settled i (.rejectedErr reason) ::
          (match e.kind with
            | .handshake => [OutEv.closeRequested]
            | .userCall => []) ++ cleanupOut rest reason

/-- `ws.onclose`: flip `isConnected`, null the socket ref, reject and clear
every pending request with reason `"Connection closed"`, and, only when
still mounted, arm one reconnect timer. -/
def onclose (st : St) : St × List OutEv :=
  let outs := cleanupOut st.requests "Connection closed"
  let st1 : St :=
    { st with isConnected := false, socket := none, requests := [] }
  if st.isMounted then
    ({ st1 with reconnectTimer := some st.nextTimer, nextTimer := st.nextTimer + 1 },
      outs ++ [.reconnectScheduled st.nextTimer])
  else (st1, outs)

/-- `connect()` (the hook's, with `VPS_URL`/`ADMIN_TOKEN` present): if the
current socket is `OPEN` or `CONNECTING` it returns without doing anything;
otherwise it constructs a new `WebSocket` (the `Connecting` transition) and
stores it in the ref. -/
def connect (st : St) : St × List OutEv :=
  match st.socket with
  | some sock =>
      if sock.readyState = ReadyState.OPEN ∨ sock.readyState = ReadyState.CONNECTING
      then (st, [])
      else
        ({ st with socket := some ⟨.CONNECTING, false⟩ }, [.socketCreated])
  | none =>
      ({ st with socket := some ⟨.CONNECTING, false⟩ }, [.socketCreated])

/-- `ws.onopen`: send the handshake request. -/
def onopen (st : St) : St × List OutEv :=
  let (st1, out, _) := sendConnect st
  (st1, out)

/-- The immediate disposition of the promise returned by `call()`. -/
inductive CallResult where
  | pending (id : String)
  | rejectedNow (reason : String)
deriving DecidableEq, Repr

/-- `call(method, params)` with `freshId` standing for the
`crypto.randomUUID()` result: reject `"Not connected"` when the socket is
absent or not `OPEN` (before any id or timer is created); otherwise create
the timeout timer, register the entry, and send — rolling the entry back
(timer cleared, entry removed) when `ws.send` throws. -/
def call (st : St) (method freshId : String) : St × List OutEv × CallResult :=
  match st.socket with
  | none => (st, [], .rejectedNow "Not connected")
  | some sock =>
      if sock.readyState ≠ ReadyState.OPEN then
        (st, [], .rejectedNow "Not connected")
      else
        let tid := st.nextTimer
        let st1 : St :=
          { st with
              nextTimer := st.nextTimer + 1,
              requests := setKey st.requests freshId ⟨tid, .userCall⟩ }
        let (sendOut, threw) := sockSend sock method freshId
        if threw then
          ({ st1 with requests := delKey st1.requests freshId },
            [.timerStarted tid, .timerCleared tid],
            .rejectedNow "send error")
        else
          (st1, OutEv.timerStarted tid :: sendOut, .pending freshId)

/-- The request-timeout callback for the entry of id `i` with timer `t` (a
cleared timer never fires, hence the `timerId` match): the handshake handler
rejects, deletes, and force-closes the socket; the `call` handler rejects
`"Request timed out"` and deletes. -/
def onReqTimeout (st : St) (i : String) (t : Nat) : St × List OutEv :=
  match getKey st.requests i with
  | none => (st, [])
  | some e =>
      if e.timerId ≠ t then (st, [])
      else
        match e.kind with
        | .handshake =>
            ({ st with
                requests := delKey st.requests i,
                socket := st.socket.map (fun s => { s with readyState := .CLOSING }) },
              [.settled i (.rejectedErr "Handshake timed out"), .closeRequested])
        | .userCall =>
            ({ st with requests := delKey st.requests i },
              [.settled i (.rejectedErr "Request timed out")])

/-- The `useEffect` cleanup (unmount = this implementation's
`disconnect()`): clear the mounted flag, close the socket if present, cancel
any armed reconnect timer, and reject all pending requests with
`"Component unmounted"`. -/
def unmountCleanup (st : St) : St × List OutEv :=
  let (o1, sockClosed) :=
    match st.socket with
    | some _ => ([OutEv.closeRequested],
        (st.socket.map (fun s => { s with readyState := ReadyState.CLOSING })))
    | none => ([], none)
  let o2 :=
    match st.reconnectTimer with
    | some t => [OutEv.reconnectCleared t]
    | none => []
  let o3 := cleanupOut st.requests "Component unmounted"
  ({ st with
      isMounted := false,
      socket := sockClosed,
      reconnectTimer := none,
      requests := [] },
    o1 ++ o2 ++ o3)

/-! ### The `GatewayProvider` variant (second provider in the same file):
its `onEvent` fan-out wraps each listener callback in its own
`try`/`catch`, and its `connect` stops any existing client before
constructing a replacement. -/

/-- `GatewayProvider` React state: the current client (abstracted to a
numeric identity drawn from `nextClient`), the `connected`/`connecting`
flags, last error and last hello payload. -/
structure PSt where
  client : Option Nat
  connected : Bool
  connecting : Bool
  error : Option String
  hello : Option Nat
  nextClient : Nat
deriving DecidableEq, Repr

/-- `GatewayProvider.connect`: `if (client) client.stop()`, reset the
observable state, then construct and start a new `GatewayBrowserClient`. -/
def providerConnect (p : PSt) : PSt × List OutEv :=
  let o1 : List OutEv :=
    match p.client with
    | some c => [.clientStopped c]
    | none => []
  ({ p with
      connecting := true, error := none, hello := none,
      client := some p.nextClient, nextClient := p.nextClient + 1 },
    o1 ++ [.clientStarted p.nextClient])

/-- The `GatewayProvider.onEvent` fan-out: every callback is invoked inside
its own `try`/`catch`, a thrower is logged and the loop continues. -/
def broadcastGuarded (ls : List (Nat × Bool)) (tag : String) : List OutEv :=
  match ls with
  | [] => []
  | (l, thr) :: rest =>
      OutEv.notified l tag ::
        (if thr then [OutEv.logError "Error in gateway event listener"] else []) ++
          broadcastGuarded rest tag

/-! ### Event-driven execution: the callbacks the runtime can deliver to one
hook instance, as a step function, plus a run over an event sequence. -/

/-- Externally triggered callbacks: transport open, transport close, an
inbound message (`none` = unparseable), the reconnect timer firing, a
request-timeout timer firing, and a `call()` from the UI. -/
inductive Ev where
  | evOpen
  | evClose
  | evMsg (raw : Option Msg)
  | evReconnectFire (t : Nat)
  | evReqTimeout (i : String) (t : Nat)
  | evCall (method freshId : String)
deriving DecidableEq, Repr

/-- One callback delivery.  `evOpen` also models the browser moving
`readyState` to `OPEN` before `ws.onopen` runs; `evReconnectFire` runs
`connect` only if the fired timer is the one currently armed (a
`clearTimeout`-ed timer never fires). -/
def step (st : St) (e : Ev) : St × List OutEv :=
  match e with
  | .evOpen =>
      match st.socket with
      | some sock =>
          onopen { st with socket := some { sock with readyState := .OPEN } }
      | none => (st, [])
  | .evClose => onclose st
  | .evMsg raw => onmessage st raw
  | .evReconnectFire t =>
      if st.reconnectTimer = some t then
        connect { st with reconnectTimer := none }
      else (st, [])
  | .evReqTimeout i t => onReqTimeout st i t
  | .evCall m f =>
      let (st1, out, _) := call st m f
      (st1, out)

/-- Deliver a sequence of callbacks, accumulating the output trace. -/
def run (st : St) (evs : List Ev) : St × List OutEv :=
  match evs with
  | [] => (st, [])
  | e :: rest =>
      let (st1, o1) := step st e
      let (st2, o2) := run st1 rest
      (st2, o1 ++ o2)

/-! ### Trace observations. -/

/-- Number of settlement events for correlation id `i` in a trace. -/
def countSettledFor (out : List OutEv) (i : String) : Nat :=
  out.countP (fun e =>
    match e with
    | .settled j _ => j = i
    | _ => false)

/-- The listeners invoked in a trace, in invocation order. -/
def notifiedOf (out : List OutEv) : List Nat :=
  out.filterMap (fun e =>
    match e with
    | .notified l _ => some l
    | _ => none)

/-- A trace containing no `Connecting` transition and no armed reconnect:
no `WebSocket` construction, no reconnect scheduling. -/
def reconnectFree (out : List OutEv) : Bool :=
  out.all (fun e =>
    match e with
    | .socketCreated => false
    | .reconnectScheduled _ => false
    | _ => true)

/-- All listeners in the registry are non-throwing. -/
def noThrow (ls : List (Nat × Bool)) : Bool :=
  ls.all (fun l => l.2 = false)

/-- The challenge event frame sent by the gateway during handshake. -/
def challengeMsg : Msg :=
  { type := "event", event := some "connect.challenge" }

/-- A successful handshake response frame with the given payload. -/
def resOk (p : Nat) : Msg :=
  { type := "res", id := some CONNECT_ID, ok := some true, payload := p }

/-- `N` challenge events delivered in a row. -/
def iterChallenge (n : Nat) (st : St) : St × List OutEv :=
  run st (List.replicate n (.evMsg (some challengeMsg)))

/-- The guard `!socketRef.current || socketRef.current.readyState !== WebSocket.OPEN`
that `call` checks, as a predicate: there is a socket and it is `OPEN`. -/
def socketOpenB (st : St) : Bool :=
  match st.socket with
  | some s => s.readyState = ReadyState.OPEN
  | none => false

/-! ### Concrete states used in counterexamples and witnesses. -/

/-- A freshly mounted hook before `connect()` ran. -/
def stInit : St :=
  { socket := none, requests := [], listeners := [], reconnectTimer := none,
    isMounted := true, isConnected := false, nextTimer := 0 }

/-- An open transport whose `send` does not throw. -/
def sockOpen : Socket := { readyState := .OPEN, sendThrows := false }

/-- An open transport whose `send` throws synchronously. -/
def sockThrows : Socket := { readyState := .OPEN, sendThrows := true }

/-- Mid-handshake: socket `OPEN`, the reserved handshake entry pending,
`isConnected` still false. -/
def stHandshaking : St :=
  { socket := some sockOpen,
    requests := [(CONNECT_ID, ⟨0, .handshake⟩)],
    listeners := [], reconnectTimer := none,
    isMounted := true, isConnected := false, nextTimer := 1 }

/-- Ready, with two outstanding calls and two listeners. -/
def stReady : St :=
  { socket := some sockOpen,
    requests := [("a", ⟨0, .userCall⟩), ("b", ⟨1, .userCall⟩)],
    listeners := [(5, false), (6, false)], reconnectTimer := none,
    isMounted := true, isConnected := true, nextTimer := 2 }

/-- Ready, with a listener that throws registered before one that does not. -/
def stThrowing : St :=
  { socket := some sockOpen, requests := [],
    listeners := [(0, true), (1, false)], reconnectTimer := none,
    isMounted := true, isConnected := true, nextTimer := 0 }

/-- Disconnected with a reconnect timer armed. -/
def stArmed : St :=
  { socket := none, requests := [], listeners := [], reconnectTimer := some 7,
    isMounted := true, isConnected := false, nextTimer := 8 }

/-- Ready on a transport whose `send` throws, one call outstanding. -/
def stSendFail : St :=
  { socket := some sockThrows,
    requests := [("a", ⟨0, .userCall⟩)],
    listeners := [], reconnectTimer := none,
    isMounted := true, isConnected := true, nextTimer := 1 }

/-- A provider with a live client. -/
def pConnected : PSt :=
  { client := some 0, connected := true, connecting := false,
    error := none, hello := some 3, nextClient := 1 }

/-- An ordinary chat event frame. -/
def chatEvt : Msg := { type := "event", event := some "chat", payload := 5 }

/-- A response frame whose correlation id is in no table. -/
def strayRes : Msg := { type := "res", id := some "zz", ok := some true, payload := 1 }

/-! ## Helper lemmas -/

theorem countSettledFor_append (a b : List OutEv) (i : String) :
    countSettledFor (a ++ b) i = countSettledFor a i + countSettledFor b i :=
  List.countP_append _ _ _

theorem countSettledFor_broadcastAbort (ls : List (Nat × Bool)) (tag i : String) :
    countSettledFor (broadcastAbort ls tag).1 i = 0 := by
  induction ls with
  | nil => rfl
  | cons hd tl ih =>
      obtain ⟨l, thr⟩ := hd
      cases thr <;> simp [broadcastAbort, countSettledFor, List.countP_cons] <;>
        simpa [countSettledFor] using ih

theorem broadcastAbort_noThrow (ls : List (Nat × Bool)) (tag : String)
    (h : noThrow ls = true) :
    broadcastAbort ls tag = (ls.map (fun l => OutEv.notified l.1 tag), false) := by
  induction ls with
  | nil => rfl
  | cons hd tl ih =>
      obtain ⟨l, thr⟩ := hd
      simp [noThrow] at h
      obtain ⟨h1, h2⟩ := h
      simp [broadcastAbort, h1, ih (by simpa [noThrow] using h2)]

theorem notifiedOf_append (a b : List OutEv) :
    notifiedOf (a ++ b) = notifiedOf a ++ notifiedOf b :=
  List.filterMap_append _ _ _

@[simp]
theorem reconnectFree_append (a b : List OutEv) :
    reconnectFree (a ++ b) = (reconnectFree a && reconnectFree b) :=
  List.all_append

@[simp]
theorem reconnectFree_cleanupOut (m : List (String × Entry)) (r : String) :
    reconnectFree (cleanupOut m r) = true := by
  induction m with
  | nil => rfl
  | cons hd tl ih =>
      obtain ⟨k, t, kd⟩ := hd
      cases kd <;> simp [cleanupOut, reconnectFree] <;>
        simpa [reconnectFree] using ih

@[simp]
theorem reconnectFree_broadcastAbort (ls : List (Nat × Bool)) (tag : String) :
    reconnectFree (broadcastAbort ls tag).1 = true := by
  induction ls with
  | nil => rfl
  | cons hd tl ih =>
      obtain ⟨l, thr⟩ := hd
      cases thr <;> simp [broadcastAbort, reconnectFree] <;>
        simpa [reconnectFree] using ih

theorem delKey_setKey_of_not_has (m : List (String × Entry)) (k : String) (v : Entry)
    (h : hasKey m k = false) : delKey (setKey m k v) k = m := by
  induction m with
  | nil => simp [setKey, delKey]
  | cons hd tl ih =>
      obtain ⟨k0, v0⟩ := hd
      simp [hasKey] at h
      obtain ⟨h1, h2⟩ := h
      have ih2 := ih (by simpa [hasKey] using h2)
      simp [setKey, delKey, h1, Ne.symm h1]
      simpa [delKey] using ih2

theorem countSettledFor_cleanupOut (m : List (String × Entry)) (r i : String) :
    countSettledFor (cleanupOut m r) i = (m.map Prod.fst).count i := by
  induction m with
  | nil => rfl
  | cons hd tl ih =>
      obtain ⟨k, t, kd⟩ := hd
      simp only [countSettledFor] at ih
      cases kd <;>
        simp [cleanupOut, countSettledFor, List.countP_cons, List.countP_append,
          List.count_cons, ih] <;>
        by_cases hk : k = i <;> simp [hk] <;> omega

theorem count_settled_cleanupOut (m : List (String × Entry)) (r i : String) :
    (cleanupOut m r).count (OutEv.settled i (Outcome.rejectedErr r)) =
      (m.map Prod.fst).count i := by
  induction m with
  | nil => rfl
  | cons hd tl ih =>
      obtain ⟨k, t, kd⟩ := hd
      cases kd <;>
        simp [cleanupOut, List.count_cons, List.count_append, ih] <;>
        by_cases hk : k = i <;> simp [hk] <;> omega

@[simp]
theorem countSettledFor_reconnectScheduled (t : Nat) (i : String) :
    countSettledFor [OutEv.reconnectScheduled t] i = 0 := rfl

theorem mem_keys_of_hasKey (m : List (String × Entry)) (i : String)
    (h : hasKey m i = true) : i ∈ m.map Prod.fst := by
  simp only [hasKey, List.any_eq_true, decide_eq_true_eq] at h
  obtain ⟨p, hp, hp1⟩ := h
  exact List.mem_map.2 ⟨p, hp, hp1⟩

theorem sendConnect_fields (st : St) :
    (sendConnect st).1.isMounted = st.isMounted ∧
    (sendConnect st).1.reconnectTimer = st.reconnectTimer ∧
    reconnectFree (sendConnect st).2.1 = true := by
  rcases hs : st.socket with _ | sock
  · simp [sendConnect, hs, reconnectFree]
  · by_cases hr : sock.readyState = ReadyState.OPEN
    · by_cases hk : hasKey st.requests CONNECT_ID = true <;>
        cases hth : sock.sendThrows <;>
          simp [sendConnect, hs, hr, hk, hth, sockSend, reconnectFree]
    · simp [sendConnect, hs, hr, reconnectFree]

theorem settleRes_fields (st : St) (i : String) (e : Entry) (data : Msg) :
    (settleRes st i e data).1.isMounted = st.isMounted ∧
    (settleRes st i e data).1.reconnectTimer = st.reconnectTimer ∧
    (settleRes st i e data).1.listeners = st.listeners ∧
    reconnectFree (settleRes st i e data).2 = true := by
  obtain ⟨t, kd⟩ := e
  cases kd <;> simp [settleRes, reconnectFree] <;> split <;> simp [reconnectFree]

theorem onmessage_fields (st : St) (raw : Option Msg) :
    (onmessage st raw).1.isMounted = st.isMounted ∧
    (onmessage st raw).1.reconnectTimer = st.reconnectTimer ∧
    reconnectFree (onmessage st raw).2 = true := by
  rcases raw with _ | data
  · simp [onmessage, reconnectFree]
  · simp only [onmessage]
    split
    · have h := sendConnect_fields st
      rcases hsc : sendConnect st with ⟨st1, out1, threw⟩
      rw [hsc] at h
      cases threw <;> simp_all [reconnectFree]
    · rcases hres : (if data.type = "res" then
        match data.id with
        | some i =>
            match getKey st.requests i with
            | some e =>
                let (st2, out2) := settleRes st i e data
                ({ st2 with requests := delKey st2.requests i }, out2)
            | none => (st, [])
        | none => (st, [])
        else (st, ([] : List OutEv))) with ⟨st1, out1⟩
      have h1 : st1.isMounted = st.isMounted ∧ st1.reconnectTimer = st.reconnectTimer ∧
          st1.listeners = st.listeners ∧ reconnectFree out1 = true := by
        split at hres
        · split at hres
          · split at hres
            · rename_i x1 i heq1 x2 e heq2
              have h := settleRes_fields st i e data
              rcases hsr : settleRes st i e data with ⟨st2, out2⟩
              rw [hsr] at h hres
              cases hres
              simp_all
            · cases hres; simp [reconnectFree]
          · cases hres; simp [reconnectFree]
        · cases hres; simp [reconnectFree]
      rcases hbc : broadcastAbort st1.listeners data.type with ⟨out2, escaped⟩
      have hfree : reconnectFree out2 = true := by
        have := reconnectFree_broadcastAbort st1.listeners data.type
        rw [hbc] at this
        exact this
      cases escaped <;> simp_all [reconnectFree]

theorem onReqTimeout_fields (st : St) (i : String) (t : Nat) :
    (onReqTimeout st i t).1.isMounted = st.isMounted ∧
    (onReqTimeout st i t).1.reconnectTimer = st.reconnectTimer ∧
    reconnectFree (onReqTimeout st i t).2 = true := by
  rcases hg : getKey st.requests i with _ | e
  · simp [onReqTimeout, hg, reconnectFree]
  · obtain ⟨t0, kd⟩ := e
    cases kd <;> simp [onReqTimeout, hg, reconnectFree] <;> split <;>
      simp [reconnectFree]

theorem call_fields (st : St) (m f : String) :
    (call st m f).1.isMounted = st.isMounted ∧
    (call st m f).1.reconnectTimer = st.reconnectTimer ∧
    reconnectFree (call st m f).2.1 = true := by
  rcases hs : st.socket with _ | sock
  · simp [call, hs, reconnectFree]
  · by_cases hr : sock.readyState = ReadyState.OPEN
    · cases hth : sock.sendThrows <;>
        simp [call, hs, hr, hth, sockSend, reconnectFree]
    · simp [call, hs, hr, reconnectFree]

theorem onclose_fields (st : St) (h1 : st.isMounted = false) :
    (onclose st).1.isMounted = false ∧
    (onclose st).1.reconnectTimer = st.reconnectTimer ∧
    reconnectFree (onclose st).2 = true := by
  simp [onclose, h1]

/-- A hook instance on which the unmount cleanup has run: the mounted flag
is down and no reconnect timer is armed. -/
def Quiesced (st : St) : Prop :=
  st.isMounted = false ∧ st.reconnectTimer = none

theorem step_quiesced (st : St) (e : Ev) (h : Quiesced st) :
    Quiesced (step st e).1 ∧ reconnectFree (step st e).2 = true := by
  obtain ⟨h1, h2⟩ := h
  cases e with
  | evOpen =>
      rcases hs : st.socket with _ | sock
      · simp [step, hs, Quiesced, h1, h2, reconnectFree]
      · have h := sendConnect_fields { st with socket := some { sock with readyState := .OPEN } }
        simp only [step, hs, onopen]
        exact ⟨⟨by simp_all, by simp_all⟩, h.2.2⟩
  | evClose =>
      have h := onclose_fields st h1
      exact ⟨⟨h.1, h.2.1.trans h2⟩, h.2.2⟩
  | evMsg raw =>
      have h := onmessage_fields st raw
      exact ⟨⟨h.1.trans h1, h.2.1.trans h2⟩, h.2.2⟩
  | evReconnectFire t => simp [step, h2, Quiesced, h1, reconnectFree]
  | evReqTimeout i t =>
      have h := onReqTimeout_fields st i t
      exact ⟨⟨h.1.trans h1, h.2.1.trans h2⟩, h.2.2⟩
  | evCall m f =>
      have h := call_fields st m f
      simp only [step]
      rcases hc : call st m f with ⟨st1, out, res⟩
      rw [hc] at h
      exact ⟨⟨h.1.trans h1, h.2.1.trans h2⟩, h.2.2⟩

theorem run_quiesced (evs : List Ev) (st : St) (h : Quiesced st) :
    Quiesced (run st evs).1 ∧ reconnectFree (run st evs).2 = true := by
  induction evs generalizing st with
  | nil => simpa [run, reconnectFree] using h
  | cons e rest ih =>
      have hstep := step_quiesced st e h
      rcases hs : step st e with ⟨st1, o1⟩
      rw [hs] at hstep
      have hrest := ih st1 hstep.1
      simp only [run, hs]
      rcases hr : run st1 rest with ⟨st2, o2⟩
      rw [hr] at hrest
      simp [hrest.1, hstep.2, hrest.2]

theorem unmountCleanup_quiesced (st : St) : Quiesced (unmountCleanup st).1 := by
  simp [unmountCleanup, Quiesced]

theorem mem_broadcastGuarded (ls : List (Nat × Bool)) (tag : String)
    (l : Nat × Bool) (hl : l ∈ ls) :
    OutEv.notified l.1 tag ∈ broadcastGuarded ls tag := by
  induction ls with
  | nil => cases hl
  | cons hd tl ih =>
      obtain ⟨k, thr⟩ := hd
      rcases List.mem_cons.1 hl with heq | hmem
      · cases thr <;> simp [broadcastGuarded, heq]
      · cases thr <;> simp [broadcastGuarded] <;> right <;>
          simpa using ih hmem

theorem broadcastAbort_thrower (pre post : List (Nat × Bool)) (l : Nat)
    (tag : String) (hpre : noThrow pre = true) :
    broadcastAbort (pre ++ (l, true) :: post) tag =
      (pre.map (fun p => OutEv.notified p.1 tag) ++ [OutEv.notified l tag], true) := by
  induction pre with
  | nil => simp [broadcastAbort]
  | cons hd tl ih =>
      obtain ⟨k, thr⟩ := hd
      simp [noThrow] at hpre
      obtain ⟨h1, h2⟩ := hpre
      simp [broadcastAbort, h1, ih (by simpa [noThrow] using h2)]

theorem sendConnect_state_listeners (st : St) (ls2 : List (Nat × Bool)) :
    sendConnect { st with listeners := ls2 } =
      ({ (sendConnect st).1 with listeners := ls2 }, (sendConnect st).2) := by
  rcases hs : st.socket with _ | sock
  · simp [sendConnect, hs]
  · by_cases hr : sock.readyState = ReadyState.OPEN
    · by_cases hk : hasKey st.requests CONNECT_ID = true <;>
        cases hth : sock.sendThrows <;>
          simp [sendConnect, hs, hr, hk, hth, sockSend]
    · simp [sendConnect, hs, hr]

theorem settleRes_state_listeners (st : St) (ls2 : List (Nat × Bool))
    (i : String) (e : Entry) (data : Msg) :
    settleRes { st with listeners := ls2 } i e data =
      ({ (settleRes st i e data).1 with listeners := ls2 },
        (settleRes st i e data).2) := by
  obtain ⟨t, kd⟩ := e
  cases kd <;> simp [settleRes] <;> split <;> simp

theorem onmessage_state_listeners (st : St) (ls2 : List (Nat × Bool))
    (raw : Option Msg) :
    (onmessage { st with listeners := ls2 } raw).1 =
      { (onmessage st raw).1 with listeners := ls2 } := by
  rcases raw with _ | data
  · rfl
  · by_cases hch : data.type = "event" ∧ data.event = some "connect.challenge"
    · have hsc := sendConnect_state_listeners st ls2
      rcases h1 : sendConnect st with ⟨st1, out1, threw⟩
      rw [h1] at hsc
      simp [onmessage, hch, hsc, h1]
    · rcases hid : data.id with _ | i
      · simp only [onmessage]
        rcases hbc : broadcastAbort ls2 data.type with ⟨o2, esc2⟩
        rcases hbc2 : broadcastAbort st.listeners data.type with ⟨o3, esc3⟩
        simp [hch, hid, hbc, hbc2]
      · by_cases ht : data.type = "res"
        · rcases hg : getKey st.requests i with _ | e
          · simp only [onmessage]
            rcases hbc : broadcastAbort ls2 data.type with ⟨o2, esc2⟩
            rcases hbc2 : broadcastAbort st.listeners data.type with ⟨o3, esc3⟩
            simp [hch, hid, ht, hg, hbc, hbc2]
          · have hsr := settleRes_state_listeners st ls2 i e data
            rcases h1 : settleRes st i e data with ⟨st2, out2⟩
            rw [h1] at hsr
            simp only [onmessage]
            rcases hbc : broadcastAbort ls2 data.type with ⟨o2, esc2⟩
            rcases hbc2 : broadcastAbort st2.listeners data.type with ⟨o3, esc3⟩
            simp_all [hch, hid, ht, hg]
        · simp only [onmessage]
          rcases hbc : broadcastAbort ls2 data.type with ⟨o2, esc2⟩
          rcases hbc2 : broadcastAbort st.listeners data.type with ⟨o3, esc3⟩
          simp [hch, hid, ht, hbc, hbc2]

@[simp]
theorem notifiedOf_nil : notifiedOf [] = [] := rfl

@[simp]
theorem notifiedOf_logError (s : String) :
    notifiedOf [OutEv.logError s] = [] := rfl

theorem notifiedOf_map_notified (ls : List (Nat × Bool)) (tag : String) :
    notifiedOf (ls.map (fun l => OutEv.notified l.1 tag)) = ls.map Prod.fst := by
  induction ls with
  | nil => rfl
  | cons hd tl ih =>
      simp only [notifiedOf] at ih ⊢
      simp [ih]

theorem broadcastAbort_only_notified (ls : List (Nat × Bool)) (tag : String) :
    ∀ a ∈ (broadcastAbort ls tag).1, ∃ l, a = OutEv.notified l tag := by
  induction ls with
  | nil => intro a ha; simp [broadcastAbort] at ha
  | cons hd tl ih =>
      obtain ⟨k, thr⟩ := hd
      rcases hb : broadcastAbort tl tag with ⟨os, b⟩
      intro a ha
      cases thr <;> simp [broadcastAbort, hb] at ha
      · rcases ha with rfl | ha
        · exact ⟨k, rfl⟩
        · exact ih a (by rw [hb]; exact ha)
      · exact ⟨k, ha⟩

theorem notifiedOf_sendConnect (st : St) :
    notifiedOf (sendConnect st).2.1 = [] := by
  rcases hs : st.socket with _ | sock
  · simp [sendConnect, hs, notifiedOf]
  · by_cases hr : sock.readyState = ReadyState.OPEN
    · by_cases hk : hasKey st.requests CONNECT_ID = true <;>
        cases hth : sock.sendThrows <;>
          simp [sendConnect, hs, hr, hk, hth, sockSend, notifiedOf]
    · simp [sendConnect, hs, hr, notifiedOf]

theorem notifiedOf_settleRes (st : St) (i : String) (e : Entry) (data : Msg) :
    notifiedOf (settleRes st i e data).2 = [] := by
  obtain ⟨t, kd⟩ := e
  cases kd <;> simp [settleRes, notifiedOf] <;> split <;> simp [notifiedOf]

/-! ## Claim theorems -/

/-- Claim C1, counterexample: in the state reached by `connect()` followed by
the transport opening, the handshake response has not yet arrived
(`isConnected = false`, so the connection is not in the Ready state), yet
`call` neither rejects with the `Not connected` error nor withholds the
request frame — the frame is sent.  The guard in `call` checks only
`readyState === WebSocket.OPEN`, not handshake completion. -/
theorem call_before_ready_sends_cex :
    (step (connect stInit).1 Ev.evOpen).1.isConnected = false ∧
    (call (step (connect stInit).1 Ev.evOpen).1 "sessions.list" "id42").2.2 ≠
      CallResult.rejectedNow "Not connected" ∧
    OutEv.frameSent "sessions.list" "id42" ∈
      (call (step (connect stInit).1 Ev.evOpen).1 "sessions.list" "id42").2.1 := by
  decide

/-- Claim C1 as amended: whenever the transport socket is absent or its
`readyState` is not `OPEN` — this is the actual guard, rather than the Ready
(handshake-completed) state — `call` leaves the state untouched, sends no
frame, and its promise rejects immediately with `Not connected`. -/
theorem call_not_open_rejects (st : St) (m f : String)
    (h : socketOpenB st = false) :
    call st m f = (st, [], CallResult.rejectedNow "Not connected") := by
  rcases hs : st.socket with _ | sock
  · simp [call, hs]
  · simp only [socketOpenB, hs, decide_eq_false_iff_not] at h
    simp [call, hs, h]

/-- Witness for the amended C1 at a concrete disconnected state. -/
theorem call_not_open_rejects_witness :
    socketOpenB stInit = false ∧
    call stInit "sessions.list" "w1" =
      (stInit, [], CallResult.rejectedNow "Not connected") :=
  ⟨by decide, call_not_open_rejects stInit "sessions.list" "w1" (by decide)⟩

/-- Claim C2, counterexample: in `useOpenClaw`'s fan-out, listener `0`
(registered first, throwing) is invoked with the event frame, but listener
`1`, registered after it, never receives the frame — the `forEach` has no
per-listener guard, so the exception aborts delivery to the remaining
listeners (it is caught only by the outer parse `try`/`catch`). -/
theorem listener_isolation_cex :
    (1, false) ∈ stThrowing.listeners ∧
    OutEv.notified 0 "event" ∈ (onmessage stThrowing (some chatEvt)).2 ∧
    OutEv.notified 1 "event" ∉ (onmessage stThrowing (some chatEvt)).2 := by
  decide

/-- Claim C2 as amended: in the `GatewayProvider` fan-out every registered
listener receives the frame even when earlier listeners throw (each callback
is individually guarded); in `useOpenClaw`'s fan-out a throwing listener is
the last one invoked for that frame — the listeners before it (none of which
throw) all receive it, those after it do not — and the escaped exception
leaves the connection state unchanged (the state produced by `onmessage` is
the same whatever the listener registry holds), so subsequent frames are
processed normally. -/
theorem listener_isolation_amended (ls pre post : List (Nat × Bool))
    (l : Nat × Bool) (k : Nat) (tag : String) (hl : l ∈ ls)
    (hpre : noThrow pre = true) (st : St) (ls2 : List (Nat × Bool))
    (raw : Option Msg) :
    OutEv.notified l.1 tag ∈ broadcastGuarded ls tag ∧
    broadcastAbort (pre ++ (k, true) :: post) tag =
      (pre.map (fun p => OutEv.notified p.1 tag) ++ [OutEv.notified k tag],
        true) ∧
    (onmessage { st with listeners := ls2 } raw).1 =
      { (onmessage st raw).1 with listeners := ls2 } :=
  ⟨mem_broadcastGuarded ls tag l hl,
    broadcastAbort_thrower pre post k tag hpre,
    onmessage_state_listeners st ls2 raw⟩

/-- Witness for the amended C2 at concrete listener registries. -/
theorem listener_isolation_amended_witness :
    OutEv.notified 1 "event" ∈ broadcastGuarded [(0, true), (1, false)] "event" ∧
    broadcastAbort [(2, false), (9, true), (3, false)] "event" =
      ([OutEv.notified 2 "event", OutEv.notified 9 "event"], true) ∧
    (onmessage { stThrowing with listeners := [] } (some chatEvt)).1 =
      { (onmessage stThrowing (some chatEvt)).1 with listeners := [] } := by
  have h := listener_isolation_amended [(0, true), (1, false)] [(2, false)]
    [(3, false)] (1, false) 9 "event" (by decide) (by decide) stThrowing []
    (some chatEvt)
  simpa using h

/-- Claim C3: after `ws.onclose` runs, the pending-request table is empty,
and every id that was outstanding at the moment of close (here: any `i` with
a table entry, under the JS-`Map` invariant that keys are unique) settles
exactly once in the emitted trace, namely rejected with the
`Connection closed` error. -/
theorem close_drains_table (st : St) (i : String)
    (hnd : (st.requests.map Prod.fst).Nodup)
    (hi : hasKey st.requests i = true) :
    (onclose st).1.requests = [] ∧
    (onclose st).2.count
      (OutEv.settled i (Outcome.rejectedErr "Connection closed")) = 1 ∧
    countSettledFor (onclose st).2 i = 1 := by
  have hmem := mem_keys_of_hasKey _ _ hi
  have hcount := List.count_eq_one_of_mem hnd hmem
  by_cases hm : st.isMounted = true <;>
    simp [onclose, hm, countSettledFor_append, countSettledFor_cleanupOut,
      count_settled_cleanupOut, List.count_append, List.count_cons,
      List.count_nil, hcount]

/-- Witness for C3: a close with two calls outstanding. -/
theorem close_drains_table_witness :
    (onclose stReady).1.requests = [] ∧
    (onclose stReady).2.count
      (OutEv.settled "a" (Outcome.rejectedErr "Connection closed")) = 1 ∧
    countSettledFor (onclose stReady).2 "a" = 1 :=
  close_drains_table stReady "a" (by decide) (by decide)

/-- Claim C4: with the handshake entry pending and the socket open, every
one of `N` challenge events re-sends the handshake frame under the same
reserved id `c1` while leaving the state — in particular the single
`c1` table entry and the timer counter — completely unchanged: the output of
the `N` deliveries is exactly `N` copies of the handshake frame send (so no
new timeout timer and no settlement), and if the handshake response then
arrives (even twice), the `c1` promise settles exactly once. -/
theorem handshake_idempotent_retry (st : St) (e : Entry) (n p : Nat)
    (hs : st.socket = some sockOpen) (hr : st.requests = [(CONNECT_ID, e)]) :
    iterChallenge n st =
      (st, List.replicate n (OutEv.frameSent "connect" CONNECT_ID)) ∧
    countSettledFor
      ((onmessage st (some (resOk p))).2 ++
        (onmessage (onmessage st (some (resOk p))).1 (some (resOk p))).2)
      CONNECT_ID = 1 := by
  obtain ⟨t, kd⟩ := e
  have hstep : onmessage st (some challengeMsg) =
      (st, [OutEv.frameSent "connect" CONNECT_ID]) := by
    simp [onmessage, challengeMsg, sendConnect, hs, sockOpen, hr, hasKey,
      CONNECT_ID, sockSend]
  constructor
  · induction n with
    | zero => simp [iterChallenge, run]
    | succ k ih =>
        simp only [iterChallenge, List.replicate_succ, run, step] at ih ⊢
        simp [hstep, ih]
  · rcases hb1 : broadcastAbort st.listeners "res" with ⟨o2, esc⟩
    simp only [countSettledFor]
    cases kd <;> cases esc <;>
      simp [onmessage, resOk, hr, hs, getKey, settleRes, delKey, CONNECT_ID,
        hb1, List.countP_append, List.countP_cons] <;>
      · intro a ha
        rcases broadcastAbort_only_notified st.listeners "res" a
          (by rw [hb1]; exact ha) with ⟨l, rfl⟩
        rfl

/-- Witness for C4: three challenges then a duplicated handshake response. -/
theorem handshake_idempotent_retry_witness :
    iterChallenge 3 stHandshaking =
      (stHandshaking,
        List.replicate 3 (OutEv.frameSent "connect" CONNECT_ID)) ∧
    countSettledFor
      ((onmessage stHandshaking (some (resOk 9))).2 ++
        (onmessage (onmessage stHandshaking (some (resOk 9))).1
          (some (resOk 9))).2) CONNECT_ID = 1 :=
  handshake_idempotent_retry stHandshaking ⟨0, .handshake⟩ 3 9 (by decide)
    (by decide)

/-- Claim C5: after the unmount cleanup (this implementation's
`disconnect()`) has run from a state with a reconnect timer armed, that
timer is cancelled (`clearTimeout` observed, ref emptied), and no sequence
of subsequently delivered callbacks — closes, timer firings, messages,
calls — ever produces a `Connecting` transition (`socketCreated`) or arms a
new reconnect timer (`reconnectScheduled`). -/
theorem no_reconnect_after_unmount (st : St) (t : Nat) (evs : List Ev)
    (h : st.reconnectTimer = some t) :
    OutEv.reconnectCleared t ∈ (unmountCleanup st).2 ∧
    (unmountCleanup st).1.reconnectTimer = none ∧
    reconnectFree (run (unmountCleanup st).1 evs).2 = true := by
  refine ⟨?_, (unmountCleanup_quiesced st).2,
    (run_quiesced evs _ (unmountCleanup_quiesced st)).2⟩
  rcases hs : st.socket with _ | sock <;> simp [unmountCleanup, hs, h]

/-- Witness for C5: cleanup with timer `7` armed, then a close, the stale
timer firing, and an unparseable message. -/
theorem no_reconnect_after_unmount_witness :
    OutEv.reconnectCleared 7 ∈ (unmountCleanup stArmed).2 ∧
    (unmountCleanup stArmed).1.reconnectTimer = none ∧
    reconnectFree (run (unmountCleanup stArmed).1
      [Ev.evClose, Ev.evReconnectFire 7, Ev.evMsg none]).2 = true :=
  no_reconnect_after_unmount stArmed 7
    [Ev.evClose, Ev.evReconnectFire 7, Ev.evMsg none] (by decide)

/-- Claim C6: when the transport `send` throws synchronously inside
`call`, the freshly created table entry is rolled back — afterwards the
table is exactly what it was (so it does not contain the request's id), the
timeout timer that was started is cleared, no frame event is emitted, and
the promise rejects with the send error. -/
theorem send_throw_rolls_back (st : St) (m f : String) (sock : Socket)
    (hs : st.socket = some sock) (hr : sock.readyState = ReadyState.OPEN)
    (hth : sock.sendThrows = true) (hk : hasKey st.requests f = false) :
    call st m f =
      ({ st with nextTimer := st.nextTimer + 1 },
        [OutEv.timerStarted st.nextTimer, OutEv.timerCleared st.nextTimer],
        CallResult.rejectedNow "send error") := by
  simp [call, hs, hr, hth, sockSend,
    delKey_setKey_of_not_has st.requests f _ hk]

/-- Witness for C6 on a throwing transport. -/
theorem send_throw_rolls_back_witness :
    call stSendFail "agents.list" "w2" =
      ({ stSendFail with nextTimer := stSendFail.nextTimer + 1 },
        [OutEv.timerStarted stSendFail.nextTimer,
          OutEv.timerCleared stSendFail.nextTimer],
        CallResult.rejectedNow "send error") :=
  send_throw_rolls_back stSendFail "agents.list" "w2" sockThrows (by decide)
    (by decide) (by decide) (by decide)

/-- Claim C7, counterexample: with an `OPEN` socket (here mid-handshake),
`useOpenClaw`'s `connect()` returns with the state unchanged and an empty
output trace: the old socket is kept, nothing is closed (`closeRequested`
absent) and nothing is replaced (`socketCreated` absent) — the guard
returns early instead of closing the old connection first. -/
theorem connect_keeps_old_cex :
    stHandshaking.socket = some sockOpen ∧
    connect stHandshaking = (stHandshaking, []) := by
  decide

/-- Claim C7 as amended: `GatewayProvider.connect` stops any previous
client before constructing and starting its replacement, so at most one
client is live; `useOpenClaw`'s `connect()` with a socket already `OPEN` or
`CONNECTING` instead returns without closing or replacing anything — the
existing connection is simply kept (also at most one socket, but by
ignoring the call rather than replacing the connection). -/
theorem connect_replaces_amended (p : PSt) (c : Nat) (hc : p.client = some c)
    (st : St) (sock : Socket) (hs : st.socket = some sock)
    (ho : sock.readyState = ReadyState.OPEN ∨
      sock.readyState = ReadyState.CONNECTING) :
    providerConnect p =
      ({ p with
          connecting := true, error := none, hello := none,
          client := some p.nextClient, nextClient := p.nextClient + 1 },
        [OutEv.clientStopped c, OutEv.clientStarted p.nextClient]) ∧
    connect st = (st, []) := by
  constructor
  · simp [providerConnect, hc]
  · rcases ho with ho | ho <;> simp [connect, hs, ho]

/-- Witness for the amended C7. -/
theorem connect_replaces_amended_witness :
    providerConnect pConnected =
      ({ pConnected with
          connecting := true, error := none, hello := none,
          client := some pConnected.nextClient,
          nextClient := pConnected.nextClient + 1 },
        [OutEv.clientStopped 0, OutEv.clientStarted pConnected.nextClient]) ∧
    connect stHandshaking = (stHandshaking, []) :=
  connect_replaces_amended pConnected 0 (by decide) stHandshaking sockOpen
    (by decide) (Or.inl (by decide))

/-- Claim C8: a response frame whose correlation id has no entry in the
pending-request table leaves the whole state — table, listener registry,
socket, `isConnected` — unchanged, settles nothing, clears no timer and
logs no error: the only activity is the ordinary listener broadcast of the
frame, which stores it nowhere, so it can never be re-delivered to a
pending request. -/
theorem unknown_res_dropped (st : St) (data : Msg) (i : String)
    (ht : data.type = "res") (hid : data.id = some i)
    (hg : getKey st.requests i = none) (hnt : noThrow st.listeners = true) :
    (onmessage st (some data)).1 = st ∧
    (onmessage st (some data)).2 =
      st.listeners.map (fun l => OutEv.notified l.1 data.type) := by
  have hch : ¬ (data.type = "event" ∧ data.event = some "connect.challenge") := by
    rintro ⟨h1, _⟩
    rw [ht] at h1
    exact absurd h1 (by decide)
  have hb := broadcastAbort_noThrow st.listeners data.type hnt
  rw [ht] at hb
  constructor
  · simp [onmessage, hch, ht, hid, hg, hb]
  · simp [onmessage, hch, ht, hid, hg, hb]

/-- Witness for C8: a stray response against a Ready state. -/
theorem unknown_res_dropped_witness :
    (onmessage stReady (some strayRes)).1 = stReady ∧
    (onmessage stReady (some strayRes)).2 =
      stReady.listeners.map (fun l => OutEv.notified l.1 strayRes.type) :=
  unknown_res_dropped stReady strayRes "zz" (by decide) (by decide) (by decide)
    (by decide)

/-- Claim C9: with non-throwing listeners, the listeners invoked while
processing a parsed inbound frame are exactly: none when the frame is a
`connect.challenge` event (it is consumed internally by the handshake
retry), and every registered listener, in registration order, for every
other frame — including response frames of type `res`. -/
theorem frames_reach_listeners (st : St) (data : Msg)
    (hnt : noThrow st.listeners = true) :
    notifiedOf (onmessage st (some data)).2 =
      (if data.type = "event" ∧ data.event = some "connect.challenge" then []
        else st.listeners.map Prod.fst) := by
  have hb := broadcastAbort_noThrow st.listeners data.type hnt
  by_cases hch : data.type = "event" ∧ data.event = some "connect.challenge"
  · rcases h1 : sendConnect st with ⟨st1, out1, threw⟩
    have hno : notifiedOf out1 = [] := by
      have h := notifiedOf_sendConnect st
      rw [h1] at h
      exact h
    cases threw <;>
      simp [onmessage, hch, h1, notifiedOf_append, hno]
  · by_cases ht : data.type = "res"
    · rw [ht] at hb
      rcases hid : data.id with _ | i
      · simp [onmessage, hch, ht, hid, hb, notifiedOf_append,
          notifiedOf_map_notified]
      · rcases hg : getKey st.requests i with _ | e
        · simp [onmessage, hch, ht, hid, hg, hb, notifiedOf_append,
            notifiedOf_map_notified]
        · rcases h2 : settleRes st i e data with ⟨st2, out2⟩
          have hns : notifiedOf out2 = [] := by
            have h := notifiedOf_settleRes st i e data
            rw [h2] at h
            exact h
          have hlist : st2.listeners = st.listeners := by
            have h := settleRes_fields st i e data
            rw [h2] at h
            exact h.2.2.1
          simp [onmessage, hch, ht, hid, hg, h2, hlist, hb, notifiedOf_append,
            hns, notifiedOf_map_notified]
    · simp [onmessage, hch, ht, hb, notifiedOf_append, notifiedOf_map_notified]

/-- Witness for C9: a chat event against a Ready state with two
listeners. -/
theorem frames_reach_listeners_witness :
    noThrow stReady.listeners = true ∧
    notifiedOf (onmessage stReady (some chatEvt)).2 =
      (if chatEvt.type = "event" ∧ chatEvt.event = some "connect.challenge"
        then [] else stReady.listeners.map Prod.fst) :=
  ⟨by decide, frames_reach_listeners stReady chatEvt (by decide)⟩

/-- Claim C10: an inbound message that fails to parse as JSON is caught by
the handler's `try`/`catch` before any dispatch: the state — pending
table, listener registry, socket, flags — is returned unchanged and the
only emitted event is the error log; in particular no pending request is
settled, no listener is invoked, and no close or reconnect activity
occurs. -/
theorem unparseable_message_inert (st : St) :
    onmessage st none = (st, [OutEv.logError "Failed to parse message"]) := rfl

end OpenClaw
